import Mathlib

/-!
# The Lark bot of botkube (`pkg/bot/lark.go`)

A shallow embedding of `LarkBot.Execute`, `LarkBot.SayHello` and the callback
registrations of `LarkBot.Start`, followed by theorems about them.

Go features that the handlers rely on are made explicit:

* an event is a `map[string]interface{}` produced by decoding JSON; its values
  are the dynamic values of `Value`;
* a one-result type assertion `x.(T)` panics with a run-time
  `TypeAssertionError` when the dynamic type of `x` is not `T` (also when `x` is
  the nil interface, which is what indexing a map at a missing key gives);
* calls on the collaborators (the command executor and the Lark client) are
  recorded, in order, in a trace.
-/

set_option autoImplicit false

namespace Botkube

/-! ## Dynamic values and type assertions -/

/-- The dynamic values an `interface{}` of a decoded event holds. A JSON number
is a `float64` in Go; the handlers never look inside one, so it carries an
integer stand-in. A slice is `none` when it is the nil slice. -/
inductive Value where
  | null : Value
  | bool (b : Bool) : Value
  | number (n : Int) : Value
  | str (s : String) : Value
  | arr (xs : Option (List Value)) : Value
  | obj (kvs : List (String × Value)) : Value

/-- A `map[string]interface{}`, as an association list read front to back. -/
abbrev GoMap := List (String × Value)

/-- Map indexing `m[key]`: the value stored at `key`, or the zero value of
`interface{}` (the nil interface) when the key is missing. -/
def index : GoMap → String → Value
  | [], _ => Value.null
  | (k, v) :: rest, key => if k = key then v else index rest key

/-- The name the Go run time prints for the dynamic type of a value. -/
def typeName : Value → String
  | Value.null => "nil"
  | Value.bool _ => "bool"
  | Value.number _ => "float64"
  | Value.str _ => "string"
  | Value.arr _ => "[]interface \x7b\x7d"
  | Value.obj _ => "map[string]interface \x7b\x7d"

/-- The value of a run-time panic raised by a failed type assertion
(`runtime.TypeAssertionError`): the dynamic type found and the type asserted.
It holds neither a field name nor an event type. -/
structure TypeAssertionError where
  concrete : String
  asserted : String
deriving DecidableEq, Repr

/-- How a Go call ends: it returns a value, or it panics. -/
inductive Outcome (α : Type) where
  | returned (a : α) : Outcome α
  | panicked (p : TypeAssertionError) : Outcome α
deriving DecidableEq, Repr

/-- The type assertion `v.(string)`. -/
def assertString (v : Value) : Outcome String :=
  match v with
  | Value.str s => Outcome.returned s
  | other => Outcome.panicked ⟨typeName other, "string"⟩

/-- The type assertion `v.(map[string]interface{})`. -/
def assertMap (v : Value) : Outcome GoMap :=
  match v with
  | Value.obj kvs => Outcome.returned kvs
  | other => Outcome.panicked ⟨typeName other, "map[string]interface \x7b\x7d"⟩

/-- The type assertion `v.([]interface{})`; the result is `none` for the nil
slice. -/
def assertSlice (v : Value) : Outcome (Option (List Value)) :=
  match v with
  | Value.arr xs => Outcome.returned xs
  | other => Outcome.panicked ⟨typeName other, "[]interface \x7b\x7d"⟩

/-! ## Collaborators and the trace of calls -/

/-- The platform discriminator `config.BotPlatform`. The constant
`config.LarkBot` is declared outside this file; it is the constructor
`LarkBot`, and every other tag is an `other`. -/
inductive BotPlatform where
  | LarkBot : BotPlatform
  | other (tag : String) : BotPlatform
deriving DecidableEq, Repr

/-- The eight arguments of `execute.NewDefaultExecutor`, in call order. The
parameter names of that function are not part of this file; the last two are
named by position. -/
structure ExecutorArgs where
  text : String
  allowKubectl : Bool
  restrictAccess : Bool
  defaultNamespace : String
  clusterName : String
  platform : BotPlatform
  arg7 : String
  arg8 : Bool
deriving DecidableEq, Repr

/-- A call on a collaborator. -/
inductive Effect where
  | execute (args : ExecutorArgs) : Effect
  | sendText (mode target text : String) : Effect
  | logInfo (line : String) : Effect
deriving DecidableEq, Repr

/-- The collaborators of the bot: `engine` is
`execute.NewDefaultExecutor(...).Execute()`, from arguments to reply;
`send` is `LarkClient.SendTextMessage`, whose result is the error (`none` is
the nil error); `prettify` is `tools.Prettify`. -/
structure Collab where
  engine : ExecutorArgs → String
  send : String → String → String → Option String
  prettify : GoMap → String

/-- A run of a piece of Go code: the calls it made on collaborators, in order,
and how it ended. -/
structure Run (α : Type) where
  trace : List Effect
  outcome : Outcome α
deriving DecidableEq, Repr

namespace Run

/-- A run that makes no call and returns `a`. -/
def ret {α : Type} (a : α) : Run α := ⟨[], Outcome.returned a⟩

/-- Sequencing: the second part runs only if the first returned; a panic ends
the run, keeping the calls made before it. -/
def andThen {α β : Type} (r : Run α) (f : α → Run β) : Run β :=
  match r.outcome with
  | Outcome.returned a => ⟨r.trace ++ (f a).trace, (f a).outcome⟩
  | Outcome.panicked p => ⟨r.trace, Outcome.panicked p⟩

/-- An evaluation without calls on collaborators. -/
def eval {α : Type} (o : Outcome α) : Run α := ⟨[], o⟩

instance : Monad Run where
  pure := ret
  bind := andThen

end Run

/-- The send calls of a trace. -/
def sends (t : List Effect) : List (String × String × String) :=
  t.filterMap fun ef =>
    match ef with
    | Effect.sendText m tg tx => some (m, tg, tx)
    | _ => none

/-- The call `execute.NewDefaultExecutor(args...).Execute()`. -/
def callEngine (c : Collab) (a : ExecutorArgs) : Run String :=
  ⟨[Effect.execute a], Outcome.returned (c.engine a)⟩

/-- The call `l.LarkClient.SendTextMessage(mode, target, text)`. -/
def SendTextMessage (c : Collab) (mode target text : String) : Run (Option String) :=
  ⟨[Effect.sendText mode target text], Outcome.returned (c.send mode target text)⟩

/-! ## The bot -/

/-- The fields of `LarkBot` that the handlers read. -/
structure LarkBot where
  AllowKubectl : Bool
  RestrictAccess : Bool
  ClusterName : String
  DefaultNamespace : String
  Port : Nat
  MessagePath : String
deriving DecidableEq, Repr

/-- The method `LarkBot.Execute` (lines 65-80): the nested object, the chat type
and the text are asserted, the executor runs, and then the target identifier
of the branch is asserted as the argument of the send. -/
def Execute (l : LarkBot) (c : Collab) (e : GoMap) : Run Unit := do
  let event ← Run.eval (assertMap (index e "event"))
  let chatType ← Run.eval (assertString (index event "chat_type"))
  let text ← Run.eval (assertString (index event "text_without_at_bot"))
  let response ← callEngine c
    ⟨text, l.AllowKubectl, l.RestrictAccess, l.DefaultNamespace, l.ClusterName,
      BotPlatform.LarkBot, "", true⟩
  if chatType = "group" then
    let target ← Run.eval (assertString (index event "open_chat_id"))
    let _ ← SendTextMessage c "chat_id" target response
    pure ()
  else
    let target ← Run.eval (assertString (index event "open_id"))
    let _ ← SendTextMessage c "open_id" target response
    pure ()

/-- The text `fmt.Sprintf("<at user_id=\"%s\">%s</at>", openID, username)` for
two strings. -/
def atSegment (openID username : String) : String :=
  "<at user_id=\"" ++ openID ++ "\">" ++ username ++ "</at>"

/-- The greeting literal of line 135. -/
def greeting : String := "Hello from botkube~ Play with me by at botkube <commands>"

/-- The body of the `for _, user := range users` loop (lines 130-132) for one
user: the new value of `messages`. -/
def helloStep (messages : List String) (user : Value) : Outcome (List String) :=
  match assertMap user with
  | Outcome.panicked p => Outcome.panicked p
  | Outcome.returned m1 =>
    match assertString (index m1 "open_id") with
    | Outcome.panicked p => Outcome.panicked p
    | Outcome.returned openID =>
      match assertMap user with
      | Outcome.panicked p => Outcome.panicked p
      | Outcome.returned m2 =>
        match assertString (index m2 "user_id") with
        | Outcome.panicked p => Outcome.panicked p
        | Outcome.returned username =>
          Outcome.returned (messages ++ [atSegment openID username])

/-- The loop of lines 129-133 from a given `messages`. -/
def helloLoop : List Value → List String → Outcome (List String)
  | [], messages => Outcome.returned messages
  | user :: rest, messages =>
    match helloStep messages user with
    | Outcome.panicked p => Outcome.panicked p
    | Outcome.returned messages1 => helloLoop rest messages1

/-- Lines 127-134: `messages` starts as the nil slice, and the loop runs when
`users != nil`. -/
def helloMessages (users : Option (List Value)) : Outcome (List String) :=
  match users with
  | some us => helloLoop us []
  | none => Outcome.returned []

/-- The rest of `strings.Join` after the first element: each further element is
written after one separator. -/
def joinTail (sep : String) : List String → String → String
  | [], b => b
  | s :: rest, b => joinTail sep rest (b ++ sep ++ s)

/-- The function `strings.Join(elems, sep)`. -/
def stringsJoin (elems : List String) (sep : String) : String :=
  match elems with
  | [] => ""
  | [s] => s
  | s :: rest => joinTail sep rest s

/-- The method `LarkBot.SayHello` (lines 124-137). Its result is the error of
the send. -/
def SayHello (_l : LarkBot) (c : Collab) (e : GoMap) : Run (Option String) := do
  let event ← Run.eval (assertMap (index e "event"))
  let users ← Run.eval (assertSlice (index event "users"))
  let messages ← Run.eval (helloMessages users)
  let messages := messages ++ [greeting]
  let target ← Run.eval (assertString (index event "chat_id"))
  SendTextMessage c "chat_id" target (stringsJoin messages " ")

/-! ## Registration of the callbacks and dispatch -/

/-- The request context `*core.Context`; the callbacks read its request ID. -/
structure Context where
  requestID : String
deriving DecidableEq, Repr

/-- The call a `go` statement starts in a new goroutine. -/
inductive Goroutine where
  | Execute (l : LarkBot) (e : GoMap) : Goroutine
  | SayHello (l : LarkBot) (e : GoMap) : Goroutine

/-- What one invocation of a registered callback does before it returns: its
own calls (two log lines), the goroutines it starts with `go`, and the error it
returns (`none` is nil). -/
structure CallbackResult where
  trace : List Effect
  spawned : List Goroutine
  err : Option String

/-- The type of the functions given to `event.SetTypeCallback`. -/
abbrev Callback := Context → GoMap → CallbackResult

/-- The dispatch table of the event package: one callback per type string. -/
abbrev Registry := List (String × Callback)

/-- Modelled from the spec: `event.SetTypeCallback` belongs to the transport
collaborator, which "registers this core's event-kind handlers"; a registration
for a type replaces an earlier one for the same type. -/
def SetTypeCallback (table : Registry) (typ : String) (cb : Callback) : Registry :=
  table.filter (fun p => p.1 != typ) ++ [(typ, cb)]

/-- The callback of lines 87-92: two log lines, `go l.Execute(e)`, `return nil`. -/
def messageCallback (l : LarkBot) (c : Collab) : Callback := fun ctx e =>
  ⟨[Effect.logInfo ctx.requestID, Effect.logInfo (c.prettify e)], [Goroutine.Execute l e], none⟩

/-- The callback of lines 95-100, 103-108 and 111-116: two log lines,
`go l.SayHello(e)`, `return nil`. -/
def helloCallback (l : LarkBot) (c : Collab) : Callback := fun ctx e =>
  ⟨[Effect.logInfo ctx.requestID, Effect.logInfo (c.prettify e)], [Goroutine.SayHello l e], none⟩

/-- The registrations of `LarkBot.Start` (lines 86-116), from the empty table.
The lines after them hand the table to the HTTP server of the transport and
serve for ever. -/
def Start (l : LarkBot) (c : Collab) : Registry :=
  let t0 : Registry := []
  let t1 := SetTypeCallback t0 "message" (messageCallback l c)
  let t2 := SetTypeCallback t1 "add_bot" (helloCallback l c)
  let t3 := SetTypeCallback t2 "p2p_chat_create" (helloCallback l c)
  SetTypeCallback t3 "add_user_to_chat" (helloCallback l c)

/-- Modelled from the spec: the router of the transport collaborator
("Determine `type`; if unrecognized, log and discard"; "Look up the registered
handler; invoke it"). The result is `none` when no callback is registered for
the type, and otherwise what the one registered callback did. -/
def dispatch (table : Registry) (typ : String) (ctx : Context) (e : GoMap) :
    Option CallbackResult :=
  match table.find? (fun p => p.1 == typ) with
  | some (_, cb) => some (cb ctx e)
  | none => none

/-! ## Goroutines and the process -/

/-- The call that runs in a goroutine. The `go` statement discards the result
of `SayHello`. -/
def runGoroutine (c : Collab) : Goroutine → Run Unit
  | Goroutine.Execute l e => Execute l c e
  | Goroutine.SayHello l e => Run.andThen (SayHello l c e) (fun _ => Run.ret ())

/-- The state of the bot process. -/
inductive ProcState where
  | running : ProcState
  | terminated : ProcState
deriving DecidableEq, Repr

/-- The process: its state and the calls made on collaborators so far. -/
structure Proc where
  state : ProcState
  trace : List Effect
deriving DecidableEq, Repr

/-- Go: a panic that no deferred function of its goroutine recovers terminates
the program. Neither handler nor the `go` statements of `Start` defer a
recover, so the process goes on exactly when the goroutine returns. -/
def afterGoroutine (r : Run Unit) : ProcState :=
  match r.outcome with
  | Outcome.returned _ => ProcState.running
  | Outcome.panicked _ => ProcState.terminated

/-- The goroutines in `ts` run to their end, one after the other, until one
terminates the process. The handlers share no state, so the final state is the
same for every interleaving. -/
def runAll (c : Collab) : List Goroutine → Proc → Proc
  | [], p => p
  | t :: rest, p =>
    match afterGoroutine (runGoroutine c t) with
    | ProcState.running => runAll c rest ⟨p.state, p.trace ++ (runGoroutine c t).trace⟩
    | ProcState.terminated => ⟨ProcState.terminated, p.trace ++ (runGoroutine c t).trace⟩

/-- One event of type `typ` reaches the listener of a bot started by `Start`,
and the goroutines its callback starts run to their end. A terminated process
handles nothing. -/
def deliver (l : LarkBot) (c : Collab) (p : Proc) (typ : String) (ctx : Context)
    (e : GoMap) : Proc :=
  match p.state with
  | ProcState.terminated => p
  | ProcState.running =>
    match dispatch (Start l c) typ ctx e with
    | none => p
    | some r => runAll c r.spawned ⟨p.state, p.trace ++ r.trace⟩

/-! ## Predicates and texts of the specification -/

/-- A users entry as the handler needs it: an object whose `open_id` and
`user_id` are the strings of the pair. -/
def IsUser (u : Value) (p : String × String) : Prop :=
  ∃ m, u = Value.obj m ∧ index m "open_id" = Value.str p.1 ∧
    index m "user_id" = Value.str p.2

/-- The welcome text in the words of the specification: one at-mention segment
per user, in order, then the fixed greeting, with one space between
neighbours. -/
def welcomeText : List (String × String) → String
  | [] => "Hello from botkube~ Play with me by at botkube <commands>"
  | (openID, userID) :: rest =>
    ("<at user_id=\"" ++ openID ++ "\">" ++ userID ++ "</at>") ++ " " ++ welcomeText rest

/-- Whether a value is a string. -/
def Value.isStr : Value → Bool
  | Value.str _ => true
  | _ => false

/-- Whether a users entry is an object with string `open_id` and `user_id`. -/
def isUserEntry : Value → Bool
  | Value.obj m => (index m "open_id").isStr && (index m "user_id").isStr
  | _ => false

/-- A `message` event in which a required field is missing or of the wrong
shape: the nested event object, `chat_type`, `text_without_at_bot`, or the
target identifier selected by the chat type. -/
def messageMalformed (e : GoMap) : Bool :=
  match index e "event" with
  | Value.obj event =>
    match index event "chat_type" with
    | Value.str chatType =>
      !(index event "text_without_at_bot").isStr ||
        !(index event (if chatType = "group" then "open_chat_id" else "open_id")).isStr
    | _ => true
  | _ => true

/-- A welcome-class event in which a required field is missing or of the wrong
shape: the nested event object, `chat_id`, or an entry of the users sequence
that is not an object with string `open_id` and `user_id`. -/
def welcomeMalformed (e : GoMap) : Bool :=
  match index e "event" with
  | Value.obj event =>
    !(index event "chat_id").isStr ||
      (match index event "users" with
       | Value.arr (some us) => us.any (fun u => !isUserEntry u)
       | _ => false)
  | _ => true

/-! ## Lemmas on runs and type assertions -/

theorem Run.bind_eval_returned {α β : Type} (a : α) (f : α → Run β) :
    (Run.eval (Outcome.returned a) >>= f) = f a := by
  show Run.andThen _ _ = _
  simp [Run.andThen, Run.eval]

theorem Run.bind_eval_panicked {α β : Type} (p : TypeAssertionError) (f : α → Run β) :
    (Run.eval (Outcome.panicked p : Outcome α) >>= f) = ⟨[], Outcome.panicked p⟩ := by
  show Run.andThen _ _ = _
  simp [Run.andThen, Run.eval]

theorem Run.bind_callEngine {β : Type} (c : Collab) (a : ExecutorArgs) (f : String → Run β) :
    (callEngine c a >>= f) =
      ⟨Effect.execute a :: (f (c.engine a)).trace, (f (c.engine a)).outcome⟩ := by
  show Run.andThen _ _ = _
  simp [Run.andThen, callEngine]

theorem Run.bind_send {β : Type} (c : Collab) (m tg tx : String) (f : Option String → Run β) :
    (SendTextMessage c m tg tx >>= f) =
      ⟨Effect.sendText m tg tx :: (f (c.send m tg tx)).trace,
        (f (c.send m tg tx)).outcome⟩ := by
  show Run.andThen _ _ = _
  simp [Run.andThen, SendTextMessage]

theorem Run.pure_eq {α : Type} (a : α) : (pure a : Run α) = ⟨[], Outcome.returned a⟩ := rfl

theorem assertString_str (s : String) : assertString (Value.str s) = Outcome.returned s := rfl

theorem assertString_other (v : Value) (h : ∀ s, v ≠ Value.str s) :
    assertString v = Outcome.panicked ⟨typeName v, "string"⟩ := by
  cases v <;> first | rfl | exact absurd rfl (h _)

theorem assertMap_obj (m : GoMap) : assertMap (Value.obj m) = Outcome.returned m := rfl

theorem assertMap_other (v : Value) (h : ∀ m, v ≠ Value.obj m) :
    assertMap v = Outcome.panicked ⟨typeName v, "map[string]interface \x7b\x7d"⟩ := by
  cases v <;> first | rfl | exact absurd rfl (h _)

/-- What `Execute` does on an event whose nested object has a string chat type
and a string command text: one executor call, then the assertion on the target
identifier of the branch, then (if that succeeded) one send. -/
theorem Execute_eq (l : LarkBot) (c : Collab) (e event : GoMap) (chatType text : String)
    (hev : index e "event" = Value.obj event)
    (hct : index event "chat_type" = Value.str chatType)
    (htx : index event "text_without_at_bot" = Value.str text) :
    Execute l c e =
      ⟨Effect.execute ⟨text, l.AllowKubectl, l.RestrictAccess, l.DefaultNamespace,
          l.ClusterName, BotPlatform.LarkBot, "", true⟩ ::
        (match assertString (index event
            (if chatType = "group" then "open_chat_id" else "open_id")) with
         | Outcome.returned target =>
           [Effect.sendText (if chatType = "group" then "chat_id" else "open_id") target
              (c.engine ⟨text, l.AllowKubectl, l.RestrictAccess, l.DefaultNamespace,
                l.ClusterName, BotPlatform.LarkBot, "", true⟩)]
         | Outcome.panicked _ => []),
       (match assertString (index event
            (if chatType = "group" then "open_chat_id" else "open_id")) with
         | Outcome.returned _ => Outcome.returned ()
         | Outcome.panicked p => Outcome.panicked p)⟩ := by
  unfold Execute
  rw [hev, assertMap_obj, Run.bind_eval_returned, hct, assertString_str,
    Run.bind_eval_returned, htx, assertString_str, Run.bind_eval_returned, Run.bind_callEngine]
  by_cases hg : chatType = "group"
  · simp only [hg, if_true]
    cases hts : assertString (index event "open_chat_id") with
    | returned t => simp [Run.bind_eval_returned, Run.bind_send, Run.pure_eq]
    | panicked p => simp [Run.bind_eval_panicked]
  · simp only [hg, if_false]
    cases hts : assertString (index event "open_id") with
    | returned t => simp [Run.bind_eval_returned, Run.bind_send, Run.pure_eq]
    | panicked p => simp [Run.bind_eval_panicked]

/-! ## The message handler -/

/-- Claim C1. For every `message` event whose nested object has string fields
`chat_type`, `text_without_at_bot` and the target identifier of its branch,
`Execute` returns and makes exactly one send, carrying the reply of the engine:
with chat type `"group"` the send is addressed by `"chat_id"` to
`open_chat_id`, with any other chat type by `"open_id"` to `open_id`. -/
theorem Execute_replies_to_conversation (l : LarkBot) (c : Collab) (e event : GoMap)
    (chatType text : String)
    (hev : index e "event" = Value.obj event)
    (hct : index event "chat_type" = Value.str chatType)
    (htx : index event "text_without_at_bot" = Value.str text) :
    (chatType = "group" → ∀ target, index event "open_chat_id" = Value.str target →
      (Execute l c e).outcome = Outcome.returned () ∧
      sends (Execute l c e).trace =
        [("chat_id", target,
          c.engine ⟨text, l.AllowKubectl, l.RestrictAccess, l.DefaultNamespace,
            l.ClusterName, BotPlatform.LarkBot, "", true⟩)]) ∧
    (chatType ≠ "group" → ∀ target, index event "open_id" = Value.str target →
      (Execute l c e).outcome = Outcome.returned () ∧
      sends (Execute l c e).trace =
        [("open_id", target,
          c.engine ⟨text, l.AllowKubectl, l.RestrictAccess, l.DefaultNamespace,
            l.ClusterName, BotPlatform.LarkBot, "", true⟩)]) := by
  rw [Execute_eq l c e event chatType text hev hct htx]
  constructor
  · intro hg target htg
    simp [hg, htg, assertString_str, sends]
  · intro hg target htg
    simp [hg, htg, assertString_str, sends]

/-- The scenario of claim C1: a group message "get pods" for chat `G1`, the
engine replying `R`, gives the single send `("chat_id", "G1", "R")`. -/
theorem Execute_replies_to_conversation_witness :
    sends (Execute ⟨true, false, "c1", "default", 8080, "/lark"⟩
        ⟨fun _ => "R", fun _ _ _ => none, fun _ => ""⟩
        [("type", Value.str "message"),
         ("event", Value.obj [("chat_type", Value.str "group"),
            ("text_without_at_bot", Value.str "get pods"),
            ("open_chat_id", Value.str "G1")])]).trace = [("chat_id", "G1", "R")] :=
  ((Execute_replies_to_conversation ⟨true, false, "c1", "default", 8080, "/lark"⟩
      ⟨fun _ => "R", fun _ _ _ => none, fun _ => ""⟩
      [("type", Value.str "message"),
       ("event", Value.obj [("chat_type", Value.str "group"),
          ("text_without_at_bot", Value.str "get pods"),
          ("open_chat_id", Value.str "G1")])]
      [("chat_type", Value.str "group"), ("text_without_at_bot", Value.str "get pods"),
        ("open_chat_id", Value.str "G1")]
      "group" "get pods" rfl rfl rfl).1 rfl "G1" rfl).2

/-- Claim C8. For every well-formed `message` event, the calls of `Execute` are
exactly: one executor call whose arguments are the command text unchanged, the
fields `AllowKubectl`, `RestrictAccess`, `DefaultNamespace`, `ClusterName` of
the bot in that order, the tag `config.LarkBot`, the empty string and `true`;
then one send whose text is the string the engine returned for these
arguments. -/
theorem Execute_calls_engine_once (l : LarkBot) (c : Collab) (e event : GoMap)
    (chatType text target : String)
    (hev : index e "event" = Value.obj event)
    (hct : index event "chat_type" = Value.str chatType)
    (htx : index event "text_without_at_bot" = Value.str text)
    (htg : index event (if chatType = "group" then "open_chat_id" else "open_id") =
      Value.str target) :
    (Execute l c e).trace =
      [Effect.execute
        { text := text, allowKubectl := l.AllowKubectl, restrictAccess := l.RestrictAccess,
          defaultNamespace := l.DefaultNamespace, clusterName := l.ClusterName,
          platform := BotPlatform.LarkBot, arg7 := "", arg8 := true },
       Effect.sendText (if chatType = "group" then "chat_id" else "open_id") target
        (c.engine
          { text := text, allowKubectl := l.AllowKubectl, restrictAccess := l.RestrictAccess,
            defaultNamespace := l.DefaultNamespace, clusterName := l.ClusterName,
            platform := BotPlatform.LarkBot, arg7 := "", arg8 := true })] := by
  rw [Execute_eq l c e event chatType text hev hct htx, htg, assertString_str]

/-- A direct message with padded text: the engine receives the text with its
blanks, and the reply (here the text the engine echoes) is what is sent. -/
theorem Execute_calls_engine_once_witness :
    (Execute ⟨true, true, "prod", "kube-system", 8080, "/lark"⟩
        ⟨fun a => a.text ++ "!", fun _ _ _ => some "rejected", fun _ => ""⟩
        [("event", Value.obj [("chat_type", Value.str "p2p"),
            ("text_without_at_bot", Value.str "  get pods "),
            ("open_id", Value.str "U7")])]).trace =
      [Effect.execute ⟨"  get pods ", true, true, "kube-system", "prod",
          BotPlatform.LarkBot, "", true⟩,
       Effect.sendText "open_id" "U7" "  get pods !"] :=
  Execute_calls_engine_once ⟨true, true, "prod", "kube-system", 8080, "/lark"⟩
    ⟨fun a => a.text ++ "!", fun _ _ _ => some "rejected", fun _ => ""⟩
    [("event", Value.obj [("chat_type", Value.str "p2p"),
        ("text_without_at_bot", Value.str "  get pods "),
        ("open_id", Value.str "U7")])]
    [("chat_type", Value.str "p2p"), ("text_without_at_bot", Value.str "  get pods "),
      ("open_id", Value.str "U7")]
    "p2p" "  get pods " "U7" rfl rfl rfl rfl

/-- Claim C10. In `Execute` the target identifier is read after the engine has
run and only on the branch of the chat type. For a `message` event with string
chat type and text: (a) a string at the key of the branch (`open_chat_id` for
`"group"`, `open_id` otherwise) is enough for the handler to return after one
send, whatever the other key holds; (b) if the key of the branch holds no
string, the engine has been called exactly once with the command text, the
handler panics on the type assertion, and no send is made. -/
theorem Execute_target_read_after_engine (l : LarkBot) (c : Collab) (e event : GoMap)
    (chatType text : String)
    (hev : index e "event" = Value.obj event)
    (hct : index event "chat_type" = Value.str chatType)
    (htx : index event "text_without_at_bot" = Value.str text) :
    (∀ target,
      index event (if chatType = "group" then "open_chat_id" else "open_id") =
        Value.str target →
      (Execute l c e).outcome = Outcome.returned () ∧
      sends (Execute l c e).trace =
        [(if chatType = "group" then "chat_id" else "open_id", target,
          c.engine ⟨text, l.AllowKubectl, l.RestrictAccess, l.DefaultNamespace,
            l.ClusterName, BotPlatform.LarkBot, "", true⟩)]) ∧
    ((∀ s, index event (if chatType = "group" then "open_chat_id" else "open_id") ≠
        Value.str s) →
      (Execute l c e).trace =
        [Effect.execute ⟨text, l.AllowKubectl, l.RestrictAccess, l.DefaultNamespace,
          l.ClusterName, BotPlatform.LarkBot, "", true⟩] ∧
      (Execute l c e).outcome =
        Outcome.panicked
          ⟨typeName (index event (if chatType = "group" then "open_chat_id" else "open_id")),
            "string"⟩ ∧
      sends (Execute l c e).trace = []) := by
  rw [Execute_eq l c e event chatType text hev hct htx]
  constructor
  · intro target htg
    simp [htg, assertString_str, sends]
  · intro hno
    simp [assertString_other _ hno, sends]

/-- Two events for claim C10: a group message without `open_id` is answered in
the group; a group message that has `open_id` but no `open_chat_id` runs the
command and then panics without a send. -/
theorem Execute_target_read_after_engine_witness :
    sends (Execute ⟨true, false, "c1", "default", 8080, "/lark"⟩
        ⟨fun _ => "R", fun _ _ _ => none, fun _ => ""⟩
        [("event", Value.obj [("chat_type", Value.str "group"),
            ("text_without_at_bot", Value.str "get pods"),
            ("open_chat_id", Value.str "G1")])]).trace = [("chat_id", "G1", "R")] ∧
    ((Execute ⟨true, false, "c1", "default", 8080, "/lark"⟩
        ⟨fun _ => "R", fun _ _ _ => none, fun _ => ""⟩
        [("event", Value.obj [("chat_type", Value.str "group"),
            ("text_without_at_bot", Value.str "delete pod p"),
            ("open_id", Value.str "U1")])]).trace =
      [Effect.execute ⟨"delete pod p", true, false, "default", "c1",
          BotPlatform.LarkBot, "", true⟩] ∧
     (Execute ⟨true, false, "c1", "default", 8080, "/lark"⟩
        ⟨fun _ => "R", fun _ _ _ => none, fun _ => ""⟩
        [("event", Value.obj [("chat_type", Value.str "group"),
            ("text_without_at_bot", Value.str "delete pod p"),
            ("open_id", Value.str "U1")])]).outcome =
      Outcome.panicked ⟨"nil", "string"⟩ ∧
     sends (Execute ⟨true, false, "c1", "default", 8080, "/lark"⟩
        ⟨fun _ => "R", fun _ _ _ => none, fun _ => ""⟩
        [("event", Value.obj [("chat_type", Value.str "group"),
            ("text_without_at_bot", Value.str "delete pod p"),
            ("open_id", Value.str "U1")])]).trace = []) :=
  ⟨((Execute_target_read_after_engine ⟨true, false, "c1", "default", 8080, "/lark"⟩
      ⟨fun _ => "R", fun _ _ _ => none, fun _ => ""⟩
      [("event", Value.obj [("chat_type", Value.str "group"),
          ("text_without_at_bot", Value.str "get pods"),
          ("open_chat_id", Value.str "G1")])]
      [("chat_type", Value.str "group"), ("text_without_at_bot", Value.str "get pods"),
        ("open_chat_id", Value.str "G1")]
      "group" "get pods" rfl rfl rfl).1 "G1" rfl).2,
   (Execute_target_read_after_engine ⟨true, false, "c1", "default", 8080, "/lark"⟩
      ⟨fun _ => "R", fun _ _ _ => none, fun _ => ""⟩
      [("event", Value.obj [("chat_type", Value.str "group"),
          ("text_without_at_bot", Value.str "delete pod p"),
          ("open_id", Value.str "U1")])]
      [("chat_type", Value.str "group"), ("text_without_at_bot", Value.str "delete pod p"),
        ("open_id", Value.str "U1")]
      "group" "delete pod p" rfl rfl rfl).2 (fun s h => by cases h)⟩

/-! ## The welcome handler -/

theorem assertSlice_arr (xs : Option (List Value)) :
    assertSlice (Value.arr xs) = Outcome.returned xs := rfl

theorem assertSlice_other (v : Value) (h : ∀ xs, v ≠ Value.arr xs) :
    assertSlice v = Outcome.panicked ⟨typeName v, "[]interface \x7b\x7d"⟩ := by
  cases v <;> first | rfl | exact absurd rfl (h _)

theorem helloStep_user (messages : List String) (u : Value) (p : String × String)
    (h : IsUser u p) :
    helloStep messages u = Outcome.returned (messages ++ [atSegment p.1 p.2]) := by
  obtain ⟨m, rfl, ho, hu⟩ := h
  simp [helloStep, assertMap, ho, hu, assertString]

theorem helloLoop_users (us : List Value) (pairs : List (String × String))
    (h : List.Forall₂ IsUser us pairs) (messages : List String) :
    helloLoop us messages =
      Outcome.returned (messages ++ pairs.map (fun p => atSegment p.1 p.2)) := by
  induction h generalizing messages with
  | nil => simp [helloLoop]
  | cons hu _ ih => simp [helloLoop, helloStep_user _ _ _ hu, ih]

theorem joinTail_welcome (pairs : List (String × String)) (b : String) :
    joinTail " " (pairs.map (fun p => atSegment p.1 p.2) ++ [greeting]) b =
      b ++ " " ++ welcomeText pairs := by
  induction pairs generalizing b with
  | nil => simp [joinTail, welcomeText, greeting]
  | cons p rest ih =>
    obtain ⟨o, u⟩ := p
    show joinTail " " (rest.map (fun p => atSegment p.1 p.2) ++ [greeting])
      (b ++ " " ++ atSegment o u) = _
    rw [ih]
    simp only [welcomeText, atSegment, String.append_assoc]

theorem stringsJoin_welcome (pairs : List (String × String)) :
    stringsJoin (pairs.map (fun p => atSegment p.1 p.2) ++ [greeting]) " " =
      welcomeText pairs := by
  cases pairs with
  | nil => simp [stringsJoin, welcomeText, greeting]
  | cons p rest =>
    obtain ⟨o, u⟩ := p
    cases hrest : rest.map (fun p => atSegment p.1 p.2) ++ [greeting] with
    | nil => simp at hrest
    | cons x xs =>
      simp only [List.map_cons, List.cons_append, hrest, stringsJoin]
      rw [← hrest, joinTail_welcome]
      simp [welcomeText, atSegment]

/-- What `SayHello` does once the nested object, the users slice, the loop and
the chat identifier are all in order: one send to the chat. -/
theorem SayHello_eq (l : LarkBot) (c : Collab) (e event : GoMap)
    (users : Option (List Value)) (messages : List String) (chatID : String)
    (hev : index e "event" = Value.obj event)
    (hus : index event "users" = Value.arr users)
    (hloop : helloMessages users = Outcome.returned messages)
    (hid : index event "chat_id" = Value.str chatID) :
    SayHello l c e =
      ⟨[Effect.sendText "chat_id" chatID (stringsJoin (messages ++ [greeting]) " ")],
        Outcome.returned (c.send "chat_id" chatID (stringsJoin (messages ++ [greeting]) " "))⟩ := by
  unfold SayHello
  rw [hev, assertMap_obj, Run.bind_eval_returned, hus, assertSlice_arr,
    Run.bind_eval_returned]
  rw [hloop, Run.bind_eval_returned, hid, assertString_str, Run.bind_eval_returned]
  rfl

/-- Claim C2. For every welcome-class event with a string `chat_id` and a users
sequence whose entries are objects with string `open_id` and `user_id`,
`SayHello` makes exactly one call, the send `("chat_id", chat_id, text)`, where
`text` is the at-mention segments of the users in input order followed by the
greeting, joined by single spaces; it returns what the send returned. -/
theorem SayHello_greets_users (l : LarkBot) (c : Collab) (e event : GoMap)
    (us : List Value) (pairs : List (String × String)) (chatID : String)
    (hev : index e "event" = Value.obj event)
    (hid : index event "chat_id" = Value.str chatID)
    (hus : index event "users" = Value.arr (some us))
    (hent : List.Forall₂ IsUser us pairs)
    (_hN : 1 ≤ us.length) :
    (SayHello l c e).trace = [Effect.sendText "chat_id" chatID (welcomeText pairs)] ∧
    (SayHello l c e).outcome =
      Outcome.returned (c.send "chat_id" chatID (welcomeText pairs)) ∧
    pairs.length = us.length := by
  have hloop := helloLoop_users us pairs hent []
  rw [SayHello_eq l c e event (some us) _ chatID hev hus hloop hid]
  rw [List.nil_append, stringsJoin_welcome]
  exact ⟨rfl, rfl, (List.Forall₂.length_eq hent).symm⟩

/-- The scenario of claim C2: chat `G2` and the one user `U1`/`alice`. -/
theorem SayHello_greets_users_witness :
    (SayHello ⟨true, false, "c1", "default", 8080, "/lark"⟩
        ⟨fun _ => "R", fun _ _ _ => none, fun _ => ""⟩
        [("type", Value.str "add_bot"),
         ("event", Value.obj [("chat_id", Value.str "G2"),
            ("users", Value.arr (some [Value.obj [("open_id", Value.str "U1"),
              ("user_id", Value.str "alice")]]))])]).trace =
      [Effect.sendText "chat_id" "G2"
        "<at user_id=\"U1\">alice</at> Hello from botkube~ Play with me by at botkube <commands>"] :=
  (SayHello_greets_users ⟨true, false, "c1", "default", 8080, "/lark"⟩
      ⟨fun _ => "R", fun _ _ _ => none, fun _ => ""⟩
      [("type", Value.str "add_bot"),
       ("event", Value.obj [("chat_id", Value.str "G2"),
          ("users", Value.arr (some [Value.obj [("open_id", Value.str "U1"),
            ("user_id", Value.str "alice")]]))])]
      [("chat_id", Value.str "G2"),
        ("users", Value.arr (some [Value.obj [("open_id", Value.str "U1"),
          ("user_id", Value.str "alice")]]))]
      [Value.obj [("open_id", Value.str "U1"), ("user_id", Value.str "alice")]]
      [("U1", "alice")] "G2" rfl rfl rfl
      (List.Forall₂.cons ⟨_, rfl, rfl, rfl⟩ List.Forall₂.nil) (by decide)).1

/-- Claim C3. For every welcome-class event with a string `chat_id` whose users
field is an empty sequence, `SayHello` makes exactly one call, the send
`("chat_id", chat_id, text)` with `text` exactly the greeting literal. -/
theorem SayHello_no_users (l : LarkBot) (c : Collab) (e event : GoMap) (chatID : String)
    (hev : index e "event" = Value.obj event)
    (hid : index event "chat_id" = Value.str chatID)
    (hus : index event "users" = Value.arr (some [])) :
    (SayHello l c e).trace =
      [Effect.sendText "chat_id" chatID
        "Hello from botkube~ Play with me by at botkube <commands>"] ∧
    (SayHello l c e).outcome =
      Outcome.returned (c.send "chat_id" chatID
        "Hello from botkube~ Play with me by at botkube <commands>") := by
  rw [SayHello_eq l c e event (some []) [] chatID hev hus rfl hid]
  exact ⟨rfl, rfl⟩

/-- An `add_bot` event for chat `G3` with `users: []`. -/
theorem SayHello_no_users_witness :
    (SayHello ⟨true, false, "c1", "default", 8080, "/lark"⟩
        ⟨fun _ => "R", fun _ _ _ => none, fun _ => ""⟩
        [("event", Value.obj [("chat_id", Value.str "G3"),
            ("users", Value.arr (some []))])]).trace =
      [Effect.sendText "chat_id" "G3"
        "Hello from botkube~ Play with me by at botkube <commands>"] :=
  (SayHello_no_users ⟨true, false, "c1", "default", 8080, "/lark"⟩
      ⟨fun _ => "R", fun _ _ _ => none, fun _ => ""⟩
      [("event", Value.obj [("chat_id", Value.str "G3"), ("users", Value.arr (some []))])]
      [("chat_id", Value.str "G3"), ("users", Value.arr (some []))]
      "G3" rfl rfl rfl).1

/-! ## Lemmas on malformed events -/

theorem Value.isStr_eq_true (v : Value) (h : v.isStr = true) : ∃ s, v = Value.str s := by
  cases v <;> simp [Value.isStr] at h
  exact ⟨_, rfl⟩

theorem Value.isStr_eq_false (v : Value) (h : v.isStr = false) : ∀ s, v ≠ Value.str s := by
  intro s hs
  rw [hs] at h
  simp [Value.isStr] at h

theorem Execute_no_event (l : LarkBot) (c : Collab) (e : GoMap)
    (h : ∀ m, index e "event" ≠ Value.obj m) :
    Execute l c e =
      ⟨[], Outcome.panicked ⟨typeName (index e "event"), "map[string]interface \x7b\x7d"⟩⟩ := by
  unfold Execute
  rw [assertMap_other _ h, Run.bind_eval_panicked]

theorem Execute_no_chat_type (l : LarkBot) (c : Collab) (e event : GoMap)
    (hev : index e "event" = Value.obj event)
    (h : ∀ s, index event "chat_type" ≠ Value.str s) :
    Execute l c e =
      ⟨[], Outcome.panicked ⟨typeName (index event "chat_type"), "string"⟩⟩ := by
  unfold Execute
  rw [hev, assertMap_obj, Run.bind_eval_returned, assertString_other _ h,
    Run.bind_eval_panicked]

theorem Execute_no_text (l : LarkBot) (c : Collab) (e event : GoMap) (chatType : String)
    (hev : index e "event" = Value.obj event)
    (hct : index event "chat_type" = Value.str chatType)
    (h : ∀ s, index event "text_without_at_bot" ≠ Value.str s) :
    Execute l c e =
      ⟨[], Outcome.panicked ⟨typeName (index event "text_without_at_bot"), "string"⟩⟩ := by
  unfold Execute
  rw [hev, assertMap_obj, Run.bind_eval_returned, hct, assertString_str,
    Run.bind_eval_returned, assertString_other _ h, Run.bind_eval_panicked]

/-- A malformed `message` event makes `Execute` panic without a send. -/
theorem Execute_malformed (l : LarkBot) (c : Collab) (e : GoMap)
    (h : messageMalformed e = true) :
    ∃ p, (Execute l c e).outcome = Outcome.panicked p ∧ sends (Execute l c e).trace = [] := by
  unfold messageMalformed at h
  by_cases hev : ∃ event, index e "event" = Value.obj event
  · obtain ⟨event, hev⟩ := hev
    rw [hev] at h
    dsimp only at h
    by_cases hct : ∃ ct, index event "chat_type" = Value.str ct
    · obtain ⟨ct, hct⟩ := hct
      rw [hct] at h
      dsimp only at h
      cases htx : (index event "text_without_at_bot").isStr with
      | false =>
        rw [Execute_no_text l c e event ct hev hct (Value.isStr_eq_false _ htx)]
        exact ⟨_, rfl, rfl⟩
      | true =>
        obtain ⟨text, htx2⟩ := Value.isStr_eq_true _ htx
        have htg : (index event
            (if ct = "group" then "open_chat_id" else "open_id")).isStr = false := by
          simpa [htx] using h
        rw [Execute_eq l c e event ct text hev hct htx2,
          assertString_other _ (Value.isStr_eq_false _ htg)]
        exact ⟨_, rfl, rfl⟩
    · rw [Execute_no_chat_type l c e event hev (fun s hs => hct ⟨s, hs⟩)]
      exact ⟨_, rfl, rfl⟩
  · rw [Execute_no_event l c e (fun m hm => hev ⟨m, hm⟩)]
    exact ⟨_, rfl, rfl⟩

/-- A `message` event that is not malformed makes `Execute` return, whatever
the collaborators answer. -/
theorem Execute_wellformed (l : LarkBot) (c : Collab) (e : GoMap)
    (h : messageMalformed e = false) :
    (Execute l c e).outcome = Outcome.returned () := by
  unfold messageMalformed at h
  cases hev : index e "event" with
  | obj event =>
    rw [hev] at h
    dsimp only at h
    cases hct : index event "chat_type" with
    | str ct =>
      rw [hct] at h
      dsimp only at h
      simp only [Bool.or_eq_false_iff, Bool.not_eq_false_eq_eq_true] at h
      obtain ⟨text, htx⟩ := Value.isStr_eq_true _ h.1
      obtain ⟨target, htg⟩ := Value.isStr_eq_true _ h.2
      rw [Execute_eq l c e event ct text hev hct htx, htg, assertString_str]
    | _ => rw [hct] at h; simp at h
  | _ => rw [hev] at h; simp at h

theorem helloStep_bad (messages : List String) (u : Value) (h : isUserEntry u = false) :
    ∃ p, helloStep messages u = Outcome.panicked p := by
  cases u with
  | obj m =>
    cases ho : (index m "open_id").isStr with
    | false =>
      refine ⟨⟨typeName (index m "open_id"), "string"⟩, ?_⟩
      simp [helloStep, assertMap, assertString_other _ (Value.isStr_eq_false _ ho)]
    | true =>
      obtain ⟨o, ho2⟩ := Value.isStr_eq_true _ ho
      have hu : (index m "user_id").isStr = false := by
        simpa [isUserEntry, ho] using h
      refine ⟨⟨typeName (index m "user_id"), "string"⟩, ?_⟩
      simp [helloStep, assertMap, ho2, assertString_str,
        assertString_other _ (Value.isStr_eq_false _ hu)]
  | _ => exact ⟨_, rfl⟩

theorem helloStep_good (messages : List String) (u : Value) (h : isUserEntry u = true) :
    ∃ messages1, helloStep messages u = Outcome.returned messages1 := by
  cases u with
  | obj m =>
    simp only [isUserEntry, Bool.and_eq_true] at h
    obtain ⟨o, ho⟩ := Value.isStr_eq_true _ h.1
    obtain ⟨n, hn⟩ := Value.isStr_eq_true _ h.2
    exact ⟨_, helloStep_user messages (Value.obj m) (o, n) ⟨m, rfl, ho, hn⟩⟩
  | _ => simp [isUserEntry] at h

theorem helloLoop_bad (us : List Value) (h : us.any (fun u => !isUserEntry u) = true)
    (messages : List String) : ∃ p, helloLoop us messages = Outcome.panicked p := by
  induction us generalizing messages with
  | nil => simp at h
  | cons u rest ih =>
    cases hu : isUserEntry u with
    | false =>
      obtain ⟨p, hp⟩ := helloStep_bad messages u hu
      exact ⟨p, by simp [helloLoop, hp]⟩
    | true =>
      obtain ⟨m1, hm1⟩ := helloStep_good messages u hu
      have hrest : rest.any (fun u => !isUserEntry u) = true := by
        simpa [List.any_cons, hu] using h
      obtain ⟨p, hp⟩ := ih hrest m1
      exact ⟨p, by simp [helloLoop, hm1, hp]⟩

theorem helloLoop_good (us : List Value) (h : us.any (fun u => !isUserEntry u) = false)
    (messages : List String) :
    ∃ messages1, helloLoop us messages = Outcome.returned messages1 := by
  induction us generalizing messages with
  | nil => exact ⟨messages, rfl⟩
  | cons u rest ih =>
    simp only [List.any_cons, Bool.or_eq_false_iff, Bool.not_eq_false_eq_eq_true] at h
    obtain ⟨m1, hm1⟩ := helloStep_good messages u h.1
    obtain ⟨m2, hm2⟩ := ih h.2 m1
    exact ⟨m2, by simp [helloLoop, hm1, hm2]⟩

theorem SayHello_no_event (l : LarkBot) (c : Collab) (e : GoMap)
    (h : ∀ m, index e "event" ≠ Value.obj m) :
    SayHello l c e =
      ⟨[], Outcome.panicked ⟨typeName (index e "event"), "map[string]interface \x7b\x7d"⟩⟩ := by
  unfold SayHello
  rw [assertMap_other _ h, Run.bind_eval_panicked]

theorem SayHello_users_not_slice (l : LarkBot) (c : Collab) (e event : GoMap)
    (hev : index e "event" = Value.obj event)
    (h : ∀ xs, index event "users" ≠ Value.arr xs) :
    SayHello l c e =
      ⟨[], Outcome.panicked ⟨typeName (index event "users"), "[]interface \x7b\x7d"⟩⟩ := by
  unfold SayHello
  rw [hev, assertMap_obj, Run.bind_eval_returned, assertSlice_other _ h,
    Run.bind_eval_panicked]

theorem SayHello_loop_panics (l : LarkBot) (c : Collab) (e event : GoMap)
    (users : Option (List Value)) (p : TypeAssertionError)
    (hev : index e "event" = Value.obj event)
    (hus : index event "users" = Value.arr users)
    (hloop : helloMessages users = Outcome.panicked p) :
    SayHello l c e = ⟨[], Outcome.panicked p⟩ := by
  unfold SayHello
  rw [hev, assertMap_obj, Run.bind_eval_returned, hus, assertSlice_arr,
    Run.bind_eval_returned, hloop, Run.bind_eval_panicked]

theorem SayHello_no_chat_id (l : LarkBot) (c : Collab) (e event : GoMap)
    (users : Option (List Value)) (messages : List String)
    (hev : index e "event" = Value.obj event)
    (hus : index event "users" = Value.arr users)
    (hloop : helloMessages users = Outcome.returned messages)
    (h : ∀ s, index event "chat_id" ≠ Value.str s) :
    SayHello l c e = ⟨[], Outcome.panicked ⟨typeName (index event "chat_id"), "string"⟩⟩ := by
  unfold SayHello
  rw [hev, assertMap_obj, Run.bind_eval_returned, hus, assertSlice_arr,
    Run.bind_eval_returned, hloop, Run.bind_eval_returned, assertString_other _ h,
    Run.bind_eval_panicked]

/-- A malformed welcome-class event makes `SayHello` panic before any call. -/
theorem SayHello_malformed (l : LarkBot) (c : Collab) (e : GoMap)
    (h : welcomeMalformed e = true) :
    ∃ p, SayHello l c e = ⟨[], Outcome.panicked p⟩ := by
  unfold welcomeMalformed at h
  by_cases hev : ∃ event, index e "event" = Value.obj event
  · obtain ⟨event, hev⟩ := hev
    rw [hev] at h
    dsimp only at h
    by_cases hus : ∃ users, index event "users" = Value.arr users
    · obtain ⟨users, hus⟩ := hus
      rw [hus] at h
      cases hloop : helloMessages users with
      | panicked p => exact ⟨p, SayHello_loop_panics l c e event users p hev hus hloop⟩
      | returned messages =>
        have hid : (index event "chat_id").isStr = false := by
          cases users with
          | none => simpa using h
          | some us =>
            cases hany : us.any (fun u => !isUserEntry u) with
            | true =>
              obtain ⟨p, hp⟩ := helloLoop_bad us hany []
              simp [helloMessages, hp] at hloop
            | false => simpa [hany] using h
        exact ⟨_, SayHello_no_chat_id l c e event users messages hev hus hloop
          (Value.isStr_eq_false _ hid)⟩
    · exact ⟨_, SayHello_users_not_slice l c e event hev (fun xs hxs => hus ⟨xs, hxs⟩)⟩
  · exact ⟨_, SayHello_no_event l c e (fun m hm => hev ⟨m, hm⟩)⟩

/-- A welcome-class event that is not malformed and whose users field is a
slice makes `SayHello` return, whatever the collaborators answer. -/
theorem SayHello_wellformed (l : LarkBot) (c : Collab) (e event : GoMap)
    (users : Option (List Value))
    (hev : index e "event" = Value.obj event)
    (hus : index event "users" = Value.arr users)
    (h : welcomeMalformed e = false) :
    ∃ err, (SayHello l c e).outcome = Outcome.returned err := by
  unfold welcomeMalformed at h
  rw [hev] at h
  dsimp only at h
  rw [hus] at h
  simp only [ Bool.or_eq_false_iff, Bool.not_eq_false_eq_eq_true] at h
  obtain ⟨chatID, hid⟩ := Value.isStr_eq_true _ h.1
  have hloop : ∃ messages, helloMessages users = Outcome.returned messages := by
    cases users with
    | none => exact ⟨[], rfl⟩
    | some us => exact helloLoop_good us h.2 []
  obtain ⟨messages, hloop⟩ := hloop
  rw [SayHello_eq l c e event users messages chatID hev hus hloop hid]
  exact ⟨_, rfl⟩

/-! ## Absent users -/

/-- Claim C4, which the code fails. When the nested object of a welcome-class
event has no `users` key, or has `users: null`, indexing gives the nil
interface, the assertion `event["users"].([]interface{})` of line 126 panics,
and the handler ends before the check `users != nil` of line 128 and before
any send. -/
theorem SayHello_absent_users_panics (l : LarkBot) (c : Collab) (e event : GoMap)
    (hev : index e "event" = Value.obj event)
    (hus : index event "users" = Value.null) :
    SayHello l c e = ⟨[], Outcome.panicked ⟨"nil", "[]interface \x7b\x7d"⟩⟩ := by
  rw [SayHello_users_not_slice l c e event hev (by rw [hus]; intro xs h; cases h), hus]
  rfl

/-- An `add_bot` event for chat `G2` without a `users` key, and the same event
with `users: null`: no greeting is sent. -/
theorem SayHello_absent_users_panics_witness :
    SayHello ⟨true, false, "c1", "default", 8080, "/lark"⟩
        ⟨fun _ => "R", fun _ _ _ => none, fun _ => ""⟩
        [("type", Value.str "add_bot"), ("event", Value.obj [("chat_id", Value.str "G2")])] =
      ⟨[], Outcome.panicked ⟨"nil", "[]interface \x7b\x7d"⟩⟩ ∧
    SayHello ⟨true, false, "c1", "default", 8080, "/lark"⟩
        ⟨fun _ => "R", fun _ _ _ => none, fun _ => ""⟩
        [("type", Value.str "add_bot"),
         ("event", Value.obj [("chat_id", Value.str "G2"), ("users", Value.null)])] =
      ⟨[], Outcome.panicked ⟨"nil", "[]interface \x7b\x7d"⟩⟩ :=
  ⟨SayHello_absent_users_panics ⟨true, false, "c1", "default", 8080, "/lark"⟩
      ⟨fun _ => "R", fun _ _ _ => none, fun _ => ""⟩
      [("type", Value.str "add_bot"), ("event", Value.obj [("chat_id", Value.str "G2")])]
      [("chat_id", Value.str "G2")] rfl rfl,
   SayHello_absent_users_panics ⟨true, false, "c1", "default", 8080, "/lark"⟩
      ⟨fun _ => "R", fun _ _ _ => none, fun _ => ""⟩
      [("type", Value.str "add_bot"),
       ("event", Value.obj [("chat_id", Value.str "G2"), ("users", Value.null)])]
      [("chat_id", Value.str "G2"), ("users", Value.null)] rfl rfl⟩

/-- The check `users != nil` of line 128 is passed over only by a nil slice of
type `[]interface{}`: then the greeting alone is sent. -/
theorem SayHello_nil_slice (l : LarkBot) (c : Collab) (e event : GoMap) (chatID : String)
    (hev : index e "event" = Value.obj event)
    (hid : index event "chat_id" = Value.str chatID)
    (hus : index event "users" = Value.arr none) :
    (SayHello l c e).trace = [Effect.sendText "chat_id" chatID greeting] := by
  rw [SayHello_eq l c e event none [] chatID hev hus rfl hid]
  rfl

/-! ## Malformed events: what the handlers do -/

/-- Claim C5 as stated fails: a `message` event without `chat_type` is
malformed, and `Execute` ends in a run-time panic whose value names two Go
types, not in a condition that names the field and the event type. -/
theorem missing_chat_type_counterexample :
    messageMalformed
        [("type", Value.str "message"),
         ("event", Value.obj [("text_without_at_bot", Value.str "get pods"),
            ("open_id", Value.str "U1")])] = true ∧
    Execute ⟨true, false, "c1", "default", 8080, "/lark"⟩
        ⟨fun _ => "R", fun _ _ _ => none, fun _ => ""⟩
        [("type", Value.str "message"),
         ("event", Value.obj [("text_without_at_bot", Value.str "get pods"),
            ("open_id", Value.str "U1")])] =
      ⟨[], Outcome.panicked ⟨"nil", "string"⟩⟩ :=
  ⟨rfl, rfl⟩

/-- Claim C5, amended. For every event in which a required field is missing or
of the wrong shape (message: the nested object, `chat_type`,
`text_without_at_bot`, or the target identifier of the chat type; welcome: the
nested object, `chat_id`, or a users entry that is not an object with string
`open_id` and `user_id`), the handler ends in a run-time panic of a type
assertion and makes no send. -/
theorem malformed_event_panics (l : LarkBot) (c : Collab) (e : GoMap) :
    (messageMalformed e = true →
      ∃ p, (Execute l c e).outcome = Outcome.panicked p ∧
        sends (Execute l c e).trace = []) ∧
    (welcomeMalformed e = true →
      ∃ p, (SayHello l c e).outcome = Outcome.panicked p ∧
        sends (SayHello l c e).trace = []) := by
  constructor
  · exact Execute_malformed l c e
  · intro h
    obtain ⟨p, hp⟩ := SayHello_malformed l c e h
    rw [hp]
    exact ⟨p, rfl, rfl⟩

/-- A welcome event whose second users entry has a number for `user_id`: the
event is malformed and nothing is sent. -/
theorem malformed_event_panics_witness :
    welcomeMalformed
        [("event", Value.obj [("chat_id", Value.str "G2"),
            ("users", Value.arr (some [
              Value.obj [("open_id", Value.str "U1"), ("user_id", Value.str "alice")],
              Value.obj [("open_id", Value.str "U2"), ("user_id", Value.number 7)]]))])] =
      true ∧
    ∃ p, (SayHello ⟨true, false, "c1", "default", 8080, "/lark"⟩
        ⟨fun _ => "R", fun _ _ _ => none, fun _ => ""⟩
        [("event", Value.obj [("chat_id", Value.str "G2"),
            ("users", Value.arr (some [
              Value.obj [("open_id", Value.str "U1"), ("user_id", Value.str "alice")],
              Value.obj [("open_id", Value.str "U2"), ("user_id", Value.number 7)]]))])]).outcome =
          Outcome.panicked p ∧
      sends (SayHello ⟨true, false, "c1", "default", 8080, "/lark"⟩
        ⟨fun _ => "R", fun _ _ _ => none, fun _ => ""⟩
        [("event", Value.obj [("chat_id", Value.str "G2"),
            ("users", Value.arr (some [
              Value.obj [("open_id", Value.str "U1"), ("user_id", Value.str "alice")],
              Value.obj [("open_id", Value.str "U2"), ("user_id", Value.number 7)]]))])]).trace =
        [] :=
  ⟨rfl,
   (malformed_event_panics ⟨true, false, "c1", "default", 8080, "/lark"⟩
      ⟨fun _ => "R", fun _ _ _ => none, fun _ => ""⟩
      [("event", Value.obj [("chat_id", Value.str "G2"),
          ("users", Value.arr (some [
            Value.obj [("open_id", Value.str "U1"), ("user_id", Value.str "alice")],
            Value.obj [("open_id", Value.str "U2"), ("user_id", Value.number 7)]]))])]).2 rfl⟩

/-! ## The dispatch table and the process -/

theorem Start_eq (l : LarkBot) (c : Collab) :
    Start l c =
      [("message", messageCallback l c), ("add_bot", helloCallback l c),
       ("p2p_chat_create", helloCallback l c), ("add_user_to_chat", helloCallback l c)] := rfl

theorem dispatch_message (l : LarkBot) (c : Collab) (ctx : Context) (e : GoMap) :
    dispatch (Start l c) "message" ctx e = some (messageCallback l c ctx e) := rfl

theorem dispatch_hello (l : LarkBot) (c : Collab) (typ : String) (ctx : Context) (e : GoMap)
    (h : typ ∈ ["add_bot", "p2p_chat_create", "add_user_to_chat"]) :
    dispatch (Start l c) typ ctx e = some (helloCallback l c ctx e) := by
  simp only [List.mem_cons, List.mem_singleton, List.not_mem_nil, or_false] at h
  rcases h with rfl | rfl | rfl <;> rfl

theorem dispatch_other (l : LarkBot) (c : Collab) (typ : String) (ctx : Context) (e : GoMap)
    (h : typ ∉ ["message", "add_bot", "p2p_chat_create", "add_user_to_chat"]) :
    dispatch (Start l c) typ ctx e = none := by
  simp only [List.mem_cons, List.mem_singleton, List.not_mem_nil, or_false, not_or] at h
  obtain ⟨h1, h2, h3, h4⟩ := h
  have e1 : ("message" == typ) = false := by simpa using Ne.symm h1
  have e2 : ("add_bot" == typ) = false := by simpa using Ne.symm h2
  have e3 : ("p2p_chat_create" == typ) = false := by simpa using Ne.symm h3
  have e4 : ("add_user_to_chat" == typ) = false := by simpa using Ne.symm h4
  simp [dispatch, Start_eq, List.find?, e1, e2, e3, e4]

theorem deliver_message (l : LarkBot) (c : Collab) (t : List Effect) (ctx : Context)
    (e : GoMap) :
    (deliver l c ⟨ProcState.running, t⟩ "message" ctx e).state =
      afterGoroutine (Execute l c e) := by
  simp only [deliver, dispatch_message, messageCallback, runAll, runGoroutine]
  cases afterGoroutine (Execute l c e) <;> rfl

theorem deliver_hello (l : LarkBot) (c : Collab) (t : List Effect) (typ : String)
    (ctx : Context) (e : GoMap)
    (h : typ ∈ ["add_bot", "p2p_chat_create", "add_user_to_chat"]) :
    (deliver l c ⟨ProcState.running, t⟩ typ ctx e).state =
      afterGoroutine (Run.andThen (SayHello l c e) (fun _ => Run.ret ())) := by
  simp only [deliver, dispatch_hello l c typ ctx e h, helloCallback, runAll, runGoroutine]
  cases afterGoroutine (Run.andThen (SayHello l c e) (fun _ => Run.ret ())) <;> rfl

theorem afterGoroutine_returned (r : Run Unit) (h : r.outcome = Outcome.returned ()) :
    afterGoroutine r = ProcState.running := by
  simp [afterGoroutine, h]

theorem afterGoroutine_panicked (r : Run Unit) (p : TypeAssertionError)
    (h : r.outcome = Outcome.panicked p) : afterGoroutine r = ProcState.terminated := by
  simp [afterGoroutine, h]

theorem andThen_discard_returned {α : Type} (r : Run α) (a : α)
    (h : r.outcome = Outcome.returned a) :
    (Run.andThen r (fun _ => Run.ret ())).outcome = Outcome.returned () := by
  simp [Run.andThen, h, Run.ret]

theorem andThen_discard_panicked {α : Type} (r : Run α) (p : TypeAssertionError)
    (h : r.outcome = Outcome.panicked p) :
    (Run.andThen r (fun _ => Run.ret ())).outcome = Outcome.panicked p := by
  simp [Run.andThen, h]

theorem andThen_discard_trace {α : Type} (r : Run α) :
    (Run.andThen r (fun _ => Run.ret ())).trace = r.trace := by
  cases h : r.outcome <;> simp [Run.andThen, h, Run.ret]

theorem afterGoroutine_discard {α : Type} (r : Run α) :
    afterGoroutine (Run.andThen r (fun _ => Run.ret ())) =
      (match r.outcome with
       | Outcome.returned _ => ProcState.running
       | Outcome.panicked _ => ProcState.terminated) := by
  cases h : r.outcome <;> simp [afterGoroutine, Run.andThen, h, Run.ret]

theorem runAll_single (c : Collab) (g : Goroutine) (t : List Effect) :
    runAll c [g] ⟨ProcState.running, t⟩ =
      ⟨afterGoroutine (runGoroutine c g), t ++ (runGoroutine c g).trace⟩ := by
  cases h : afterGoroutine (runGoroutine c g) <;> simp [runAll, h]

theorem deliver_message_eq (l : LarkBot) (c : Collab) (t : List Effect) (ctx : Context)
    (e : GoMap) :
    deliver l c ⟨ProcState.running, t⟩ "message" ctx e =
      ⟨afterGoroutine (Execute l c e),
        t ++ [Effect.logInfo ctx.requestID, Effect.logInfo (c.prettify e)] ++
          (Execute l c e).trace⟩ := by
  simp only [deliver, dispatch_message, messageCallback, runAll_single, runGoroutine]

theorem deliver_hello_eq (l : LarkBot) (c : Collab) (t : List Effect) (typ : String)
    (ctx : Context) (e : GoMap)
    (h : typ ∈ ["add_bot", "p2p_chat_create", "add_user_to_chat"]) :
    deliver l c ⟨ProcState.running, t⟩ typ ctx e =
      ⟨(match (SayHello l c e).outcome with
        | Outcome.returned _ => ProcState.running
        | Outcome.panicked _ => ProcState.terminated),
        t ++ [Effect.logInfo ctx.requestID, Effect.logInfo (c.prettify e)] ++
          (SayHello l c e).trace⟩ := by
  simp only [deliver, dispatch_hello l c typ ctx e h, helloCallback, runAll_single,
    runGoroutine, andThen_discard_trace, afterGoroutine_discard]
  generalize (SayHello l c e).outcome = o
  cases o <;> rfl

/-- Claim C7. The table built by `Start` has exactly the four entries
`message`, `add_bot`, `p2p_chat_create`, `add_user_to_chat`, one each. Dispatch
on `message` invokes one callback, which writes its two log lines, starts one
goroutine and returns nil; that goroutine is the run of `Execute` on the event,
so an event delivered to a running bot adds the calls of `Execute` exactly once
and leaves the process as `Execute` ends. Dispatch on one of the other three
does the same with `SayHello`. Dispatch on any other type invokes nothing, so
the process is left as it was: no call is made and nothing faults. -/
theorem Start_dispatch_table (l : LarkBot) (c : Collab) :
    (Start l c).map Prod.fst =
      ["message", "add_bot", "p2p_chat_create", "add_user_to_chat"] ∧
    (∀ (t : List Effect) (ctx : Context) (e : GoMap),
      (∃ r, dispatch (Start l c) "message" ctx e = some r ∧
        r.trace = [Effect.logInfo ctx.requestID, Effect.logInfo (c.prettify e)] ∧
        r.spawned = [Goroutine.Execute l e] ∧
        r.spawned.map (runGoroutine c) = [Execute l c e] ∧ r.err = none) ∧
      deliver l c ⟨ProcState.running, t⟩ "message" ctx e =
        ⟨(match (Execute l c e).outcome with
          | Outcome.returned _ => ProcState.running
          | Outcome.panicked _ => ProcState.terminated),
          t ++ [Effect.logInfo ctx.requestID, Effect.logInfo (c.prettify e)] ++
            (Execute l c e).trace⟩) ∧
    (∀ typ, typ ∈ ["add_bot", "p2p_chat_create", "add_user_to_chat"] →
      ∀ (t : List Effect) (ctx : Context) (e : GoMap),
      (∃ r, dispatch (Start l c) typ ctx e = some r ∧
        r.trace = [Effect.logInfo ctx.requestID, Effect.logInfo (c.prettify e)] ∧
        r.spawned = [Goroutine.SayHello l e] ∧
        (r.spawned.map (fun g => (runGoroutine c g).trace)) = [(SayHello l c e).trace] ∧
        r.err = none) ∧
      deliver l c ⟨ProcState.running, t⟩ typ ctx e =
        ⟨(match (SayHello l c e).outcome with
          | Outcome.returned _ => ProcState.running
          | Outcome.panicked _ => ProcState.terminated),
          t ++ [Effect.logInfo ctx.requestID, Effect.logInfo (c.prettify e)] ++
            (SayHello l c e).trace⟩) ∧
    (∀ typ, typ ∉ ["message", "add_bot", "p2p_chat_create", "add_user_to_chat"] →
      ∀ ctx e, dispatch (Start l c) typ ctx e = none ∧
        ∀ p, deliver l c p typ ctx e = p) := by
  refine ⟨rfl, ?_, ?_, ?_⟩
  · intro t ctx e
    exact ⟨⟨_, dispatch_message l c ctx e, rfl, rfl, rfl, rfl⟩, deliver_message_eq l c t ctx e⟩
  · intro typ h t ctx e
    refine ⟨⟨_, dispatch_hello l c typ ctx e h, rfl, rfl, ?_, rfl⟩,
      deliver_hello_eq l c t typ ctx e h⟩
    simp [helloCallback, runGoroutine, andThen_discard_trace]
  · intro typ h ctx e
    refine ⟨dispatch_other l c typ ctx e h, ?_⟩
    intro p
    unfold deliver
    rw [dispatch_other l c typ ctx e h]
    cases p.state <;> rfl

/-- Three events reach a running bot whose log already holds one line. A
group message "get pods" adds the two log lines, the one executor call and the
one send of `Execute`; an `add_bot` event for chat `G2` with the user
`U1`/`alice` adds the two log lines and the one send of `SayHello`; an event of
the unregistered type `remove_bot` dispatches nothing and changes nothing. -/
theorem Start_dispatch_table_witness :
    deliver ⟨true, false, "c1", "default", 8080, "/lark"⟩
        ⟨fun _ => "R", fun _ _ _ => none, fun _ => "event"⟩
        ⟨ProcState.running, [Effect.logInfo "started"]⟩ "message" ⟨"req-1"⟩
        [("type", Value.str "message"),
         ("event", Value.obj [("chat_type", Value.str "group"),
            ("text_without_at_bot", Value.str "get pods"),
            ("open_chat_id", Value.str "G1")])] =
      ⟨ProcState.running,
        [Effect.logInfo "started", Effect.logInfo "req-1", Effect.logInfo "event",
         Effect.execute ⟨"get pods", true, false, "default", "c1",
           BotPlatform.LarkBot, "", true⟩,
         Effect.sendText "chat_id" "G1" "R"]⟩ ∧
    deliver ⟨true, false, "c1", "default", 8080, "/lark"⟩
        ⟨fun _ => "R", fun _ _ _ => none, fun _ => "event"⟩
        ⟨ProcState.running, [Effect.logInfo "started"]⟩ "add_bot" ⟨"req-2"⟩
        [("type", Value.str "add_bot"),
         ("event", Value.obj [("chat_id", Value.str "G2"),
            ("users", Value.arr (some [Value.obj [("open_id", Value.str "U1"),
              ("user_id", Value.str "alice")]]))])] =
      ⟨ProcState.running,
        [Effect.logInfo "started", Effect.logInfo "req-2", Effect.logInfo "event",
         Effect.sendText "chat_id" "G2"
          "<at user_id=\"U1\">alice</at> Hello from botkube~ Play with me by at botkube <commands>"]⟩ ∧
    (dispatch (Start ⟨true, false, "c1", "default", 8080, "/lark"⟩
        ⟨fun _ => "R", fun _ _ _ => none, fun _ => "event"⟩) "remove_bot" ⟨"req-3"⟩
        [("type", Value.str "remove_bot"),
         ("event", Value.obj [("chat_id", Value.str "G2")])] = none ∧
     ∀ p, deliver ⟨true, false, "c1", "default", 8080, "/lark"⟩
        ⟨fun _ => "R", fun _ _ _ => none, fun _ => "event"⟩ p "remove_bot" ⟨"req-3"⟩
        [("type", Value.str "remove_bot"),
         ("event", Value.obj [("chat_id", Value.str "G2")])] = p) :=
  ⟨((Start_dispatch_table ⟨true, false, "c1", "default", 8080, "/lark"⟩
      ⟨fun _ => "R", fun _ _ _ => none, fun _ => "event"⟩).2.1
      [Effect.logInfo "started"] ⟨"req-1"⟩
      [("type", Value.str "message"),
       ("event", Value.obj [("chat_type", Value.str "group"),
          ("text_without_at_bot", Value.str "get pods"),
          ("open_chat_id", Value.str "G1")])]).2,
   ((Start_dispatch_table ⟨true, false, "c1", "default", 8080, "/lark"⟩
      ⟨fun _ => "R", fun _ _ _ => none, fun _ => "event"⟩).2.2.1 "add_bot" (by decide)
      [Effect.logInfo "started"] ⟨"req-2"⟩
      [("type", Value.str "add_bot"),
       ("event", Value.obj [("chat_id", Value.str "G2"),
          ("users", Value.arr (some [Value.obj [("open_id", Value.str "U1"),
            ("user_id", Value.str "alice")]]))])]).2,
   (Start_dispatch_table ⟨true, false, "c1", "default", 8080, "/lark"⟩
      ⟨fun _ => "R", fun _ _ _ => none, fun _ => "event"⟩).2.2.2 "remove_bot" (by decide)
    ⟨"req-3"⟩
    [("type", Value.str "remove_bot"), ("event", Value.obj [("chat_id", Value.str "G2")])]⟩

/-- Claim C6 as stated fails: a `message` event whose nested object is empty
reaches a running bot. The callback returns nil, the goroutine it started
panics, the process is terminated, and a well-formed message that comes next
is not handled. -/
theorem panic_terminates_process_counterexample :
    (dispatch (Start ⟨true, false, "c1", "default", 8080, "/lark"⟩
        ⟨fun _ => "R", fun _ _ _ => none, fun _ => ""⟩) "message" ⟨"req-1"⟩
        [("type", Value.str "message"), ("event", Value.obj [])]).map
          (fun r => r.err) = some none ∧
    deliver ⟨true, false, "c1", "default", 8080, "/lark"⟩
        ⟨fun _ => "R", fun _ _ _ => none, fun _ => ""⟩ ⟨ProcState.running, []⟩
        "message" ⟨"req-1"⟩
        [("type", Value.str "message"), ("event", Value.obj [])] =
      ⟨ProcState.terminated, [Effect.logInfo "req-1", Effect.logInfo ""]⟩ ∧
    deliver ⟨true, false, "c1", "default", 8080, "/lark"⟩
        ⟨fun _ => "R", fun _ _ _ => none, fun _ => ""⟩
        (deliver ⟨true, false, "c1", "default", 8080, "/lark"⟩
          ⟨fun _ => "R", fun _ _ _ => none, fun _ => ""⟩ ⟨ProcState.running, []⟩
          "message" ⟨"req-1"⟩
          [("type", Value.str "message"), ("event", Value.obj [])])
        "message" ⟨"req-2"⟩
        [("type", Value.str "message"),
         ("event", Value.obj [("chat_type", Value.str "group"),
            ("text_without_at_bot", Value.str "get pods"),
            ("open_chat_id", Value.str "G1")])] =
      ⟨ProcState.terminated, [Effect.logInfo "req-1", Effect.logInfo ""]⟩ :=
  ⟨rfl, rfl, rfl⟩

/-- Claim C6, amended. For every event of a registered type the callback
returns nil. A failed send is contained: when the event is not malformed (and,
for a welcome event, its users field is a slice), the goroutine returns
whatever the send and the engine answer, and the process stays running. A
panic is not contained: when the event is malformed the goroutine panics,
nothing recovers it, the process is terminated, and a terminated process
handles no later event. -/
theorem fault_containment (l : LarkBot) (c : Collab) (t : List Effect) (ctx : Context)
    (e : GoMap) :
    (∀ typ, typ ∈ ["message", "add_bot", "p2p_chat_create", "add_user_to_chat"] →
      ∃ r, dispatch (Start l c) typ ctx e = some r ∧ r.err = none) ∧
    (messageMalformed e = false →
      (deliver l c ⟨ProcState.running, t⟩ "message" ctx e).state = ProcState.running) ∧
    (∀ typ, typ ∈ ["add_bot", "p2p_chat_create", "add_user_to_chat"] →
      ∀ event users, index e "event" = Value.obj event →
        index event "users" = Value.arr users → welcomeMalformed e = false →
        (deliver l c ⟨ProcState.running, t⟩ typ ctx e).state = ProcState.running) ∧
    (messageMalformed e = true →
      (deliver l c ⟨ProcState.running, t⟩ "message" ctx e).state = ProcState.terminated) ∧
    (∀ typ, typ ∈ ["add_bot", "p2p_chat_create", "add_user_to_chat"] →
      welcomeMalformed e = true →
      (deliver l c ⟨ProcState.running, t⟩ typ ctx e).state = ProcState.terminated) ∧
    (∀ p : Proc, p.state = ProcState.terminated →
      ∀ typ2 ctx2 e2, deliver l c p typ2 ctx2 e2 = p) := by
  refine ⟨?_, ?_, ?_, ?_, ?_, ?_⟩
  · intro typ h
    rw [List.mem_cons] at h
    rcases h with rfl | h
    · exact ⟨_, dispatch_message l c ctx e, rfl⟩
    · exact ⟨_, dispatch_hello l c typ ctx e h, rfl⟩
  · intro h
    rw [deliver_message]
    exact afterGoroutine_returned _ (Execute_wellformed l c e h)
  · intro typ hty event users hev hus h
    rw [deliver_hello l c t typ ctx e hty]
    obtain ⟨err, herr⟩ := SayHello_wellformed l c e event users hev hus h
    exact afterGoroutine_returned _ (andThen_discard_returned _ err herr)
  · intro h
    rw [deliver_message]
    obtain ⟨p, hp, _⟩ := Execute_malformed l c e h
    exact afterGoroutine_panicked _ p hp
  · intro typ hty h
    rw [deliver_hello l c t typ ctx e hty]
    obtain ⟨p, hp⟩ := SayHello_malformed l c e h
    exact afterGoroutine_panicked _ p (andThen_discard_panicked _ p (by rw [hp]))
  · intro p hp typ2 ctx2 e2
    unfold deliver
    rw [hp]

/-- A well-formed group message whose send fails leaves the bot running. -/
theorem fault_containment_witness :
    (deliver ⟨true, false, "c1", "default", 8080, "/lark"⟩
        ⟨fun _ => "R", fun _ _ _ => some "delivery failed", fun _ => ""⟩
        ⟨ProcState.running, []⟩ "message" ⟨"req-1"⟩
        [("type", Value.str "message"),
         ("event", Value.obj [("chat_type", Value.str "group"),
            ("text_without_at_bot", Value.str "get pods"),
            ("open_chat_id", Value.str "G1")])]).state = ProcState.running :=
  (fault_containment ⟨true, false, "c1", "default", 8080, "/lark"⟩
      ⟨fun _ => "R", fun _ _ _ => some "delivery failed", fun _ => ""⟩ [] ⟨"req-1"⟩
      [("type", Value.str "message"),
       ("event", Value.obj [("chat_type", Value.str "group"),
          ("text_without_at_bot", Value.str "get pods"),
          ("open_chat_id", Value.str "G1")])]).2.1 rfl

end Botkube
